import Mathlib

/-!
Verification development for the NeighbourGuessr round-lifecycle controller.

The definitions below are a shallow embedding of the React application in
`src/App.tsx` (the variant with the rate limiter and the hint engine).
JavaScript floating-point quantities (coordinates, distances) are embedded
as rationals, timestamps (`Date.now()`) as natural-number milliseconds.
Timer callbacks (`setTimeout`) are embedded as scheduled firing times stored
in the state; a timeout that is due fires before the next handler runs,
matching the single-threaded event loop.
-/

/-- A latitude/longitude pair (`google.maps.LatLngLiteral`). -/
structure Coord where
  lat : ℚ
  lng : ℚ
deriving DecidableEq

/-- The city bounding box shape (`CALGARY_BOUNDS` in the source). -/
structure Bounds where
  north : ℚ
  south : ℚ
  east : ℚ
  west : ℚ
deriving DecidableEq

/-- The constant `CALGARY_BOUNDS` from the source. -/
def CALGARY_BOUNDS : Bounds := { north := 51.2, south := 50.9, east := -113.8, west := -114.3 }

/-- Rate-limit window in milliseconds (`RATE_LIMIT_WINDOW` in the source). -/
def RATE_LIMIT_WINDOW : ℕ := 60000

/-- Maximum API calls per window (`MAX_API_CALLS` in the source). -/
def MAX_API_CALLS : ℕ := 10

/-- Lockout length in milliseconds (`RATE_LIMIT_DURATION` in the source). -/
def RATE_LIMIT_DURATION : ℕ := 300000

/-- The rate limiter state: `apiCallCountRef`, `lastApiCallRef`, the
`isRateLimited` flag, and the scheduled firing time of the
`rateLimitResetTimeoutRef` timeout (if one is pending).  The accompanying
user-visible `rateLimitMessage` string always mirrors `isRateLimited`
(non-empty exactly when limited) and carries no further state, so it is not
modelled as a separate field. -/
structure RL where
  apiCallCount : ℕ
  lastApiCall : ℕ
  isRateLimited : Bool
  resetTimeout : Option ℕ
deriving DecidableEq

/-- The limiter state at process start: counters zero, not limited, no
pending unlock. -/
def RL.initial : RL := { apiCallCount := 0, lastApiCall := 0, isRateLimited := false, resetTimeout := none }

/-- The body of `checkRateLimit` from the source.  Returns the boolean the
function returns (`true` = over the limit) together with the mutated limiter
state.  The window-reset test in the source is
`now - lastApiCallRef.current > RATE_LIMIT_WINDOW`: the elapsed time is
measured from the most recent recorded call.  Truncated natural subtraction
agrees with the JavaScript comparison on both sides (a negative difference is
never greater than the window). -/
def checkRateLimit (now : ℕ) (s : RL) : Bool × RL :=
  let s1 := if RATE_LIMIT_WINDOW < now - s.lastApiCall then { s with apiCallCount := 0 } else s
  if MAX_API_CALLS ≤ s1.apiCallCount then
    (true, { s1 with isRateLimited := true, resetTimeout := some (now + RATE_LIMIT_DURATION) })
  else
    (false, { s1 with apiCallCount := s1.apiCallCount + 1, lastApiCall := now })

/-- The body of the `setTimeout` scheduled by `checkRateLimit`: when its
firing time has arrived it clears `isRateLimited` and zeroes
`apiCallCountRef`.  `fireUnlock now s` applies the unlock if it is due at
time `now`, and is the identity otherwise. -/
def fireUnlock (now : ℕ) (s : RL) : RL :=
  match s.resetTimeout with
  | some u =>
      if u ≤ now then { s with apiCallCount := 0, isRateLimited := false, resetTimeout := none }
      else s
  | none => s

/-- Result of one guarded external call. -/
inductive RLResult where
  | Allowed
  | Limited
deriving DecidableEq

/-- The call-site pattern every external-lookup site in the source uses:
first an `if (isRateLimited) return;` early exit, then
`if (checkRateLimit()) return;`.  Any due unlock timeout fires first, as it
would in the single-threaded event loop. -/
def checkAndConsume (now : ℕ) (s : RL) : RLResult × RL :=
  let s0 := fireUnlock now s
  if s0.isRateLimited then (RLResult.Limited, s0)
  else
    match checkRateLimit now s0 with
    | (true, s1) => (RLResult.Limited, s1)
    | (false, s1) => (RLResult.Allowed, s1)

/-- Runs a whole sequence of guarded calls (given by their timestamps, in
event order) through the limiter, collecting the per-call results. -/
def runCalls (ts : List ℕ) (s : RL) : List RLResult × RL :=
  match ts with
  | [] => ([], s)
  | t :: rest =>
      match checkAndConsume t s with
      | (r, s1) =>
          match runCalls rest s1 with
          | (rs, s2) => (r :: rs, s2)

/-- Modelled from the spec: the `RateLimitState` aggregate named in the
specification, `{windowStartTimestamp, callsInWindow, lockedUntilTimestamp}`.
The source keeps no window-start timestamp, so this state shape exists only
to compare the specified algorithm with the implemented one. -/
structure RLSpec where
  windowStartTimestamp : ℕ
  callsInWindow : ℕ
  lockedUntilTimestamp : Option ℕ
deriving DecidableEq

/-- Modelled from the spec: initial `RateLimitState`. -/
def RLSpec.initial : RLSpec :=
  { windowStartTimestamp := 0, callsInWindow := 0, lockedUntilTimestamp := none }

/-- Modelled from the spec: steps 2 to 4 of the specified `checkAndConsume`.
Step 2 resets the window when more than `windowDurationMs` has elapsed since
`windowStartTimestamp`; step 3 starts a lockout when the call budget is
exhausted; step 4 consumes one call. -/
def checkAndConsumeSpecBody (now : ℕ) (s : RLSpec) : RLResult × RLSpec :=
  let s1 := if RATE_LIMIT_WINDOW < now - s.windowStartTimestamp then
              { s with callsInWindow := 0, windowStartTimestamp := now }
            else s
  if MAX_API_CALLS ≤ s1.callsInWindow then
    (RLResult.Limited, { s1 with lockedUntilTimestamp := some (now + RATE_LIMIT_DURATION) })
  else
    (RLResult.Allowed, { s1 with callsInWindow := s1.callsInWindow + 1 })

/-- Modelled from the spec: the specified `checkAndConsume(now)`.  Step 1
returns `Limited` without mutation while a lockout is active; an elapsed
lockout is cleared with the counter zeroed (the scheduled unlock of the
spec), after which steps 2 to 4 run. -/
def checkAndConsumeSpec (now : ℕ) (s : RLSpec) : RLResult × RLSpec :=
  match s.lockedUntilTimestamp with
  | some lockedUntil =>
      if now < lockedUntil then (RLResult.Limited, s)
      else checkAndConsumeSpecBody now { s with lockedUntilTimestamp := none, callsInWindow := 0 }
  | none => checkAndConsumeSpecBody now s

/-- Modelled from the spec: `runCalls` for the specified limiter. -/
def runCallsSpec (ts : List ℕ) (s : RLSpec) : List RLResult × RLSpec :=
  match ts with
  | [] => ([], s)
  | t :: rest =>
      match checkAndConsumeSpec t s with
      | (r, s1) =>
          match runCallsSpec rest s1 with
          | (rs, s2) => (r :: rs, s2)

/-! Step lemmas for the implemented limiter. -/

/-- One allowed call with no window reset: the counter increments and the
call timestamp is recorded. -/
theorem checkRateLimit_allowed (now : ℕ) (s : RL)
    (hc : s.apiCallCount < MAX_API_CALLS)
    (hw : now ≤ s.lastApiCall + RATE_LIMIT_WINDOW) :
    checkRateLimit now s =
      (false, { s with apiCallCount := s.apiCallCount + 1, lastApiCall := now }) := by
  unfold checkRateLimit
  rw [if_neg (by omega : ¬ RATE_LIMIT_WINDOW < now - s.lastApiCall)]
  rw [if_neg (by omega : ¬ MAX_API_CALLS ≤ s.apiCallCount)]

/-- One allowed call after the window reset fires: the counter restarts at
one. -/
theorem checkRateLimit_reset_allowed (now : ℕ) (s : RL)
    (hw : s.lastApiCall + RATE_LIMIT_WINDOW < now) :
    checkRateLimit now s = (false, { s with apiCallCount := 1, lastApiCall := now }) := by
  unfold checkRateLimit
  rw [if_pos (by omega : RATE_LIMIT_WINDOW < now - s.lastApiCall)]
  rw [if_neg (by decide : ¬ MAX_API_CALLS ≤ (0 : ℕ))]

/-- One denied call: the counter and timestamp are untouched, the limited
flag is raised and the unlock timeout is scheduled. -/
theorem checkRateLimit_limited (now : ℕ) (s : RL)
    (hc : MAX_API_CALLS ≤ s.apiCallCount)
    (hw : now ≤ s.lastApiCall + RATE_LIMIT_WINDOW) :
    checkRateLimit now s =
      (true, { s with isRateLimited := true,
                      resetTimeout := some (now + RATE_LIMIT_DURATION) }) := by
  unfold checkRateLimit
  rw [if_neg (by omega : ¬ RATE_LIMIT_WINDOW < now - s.lastApiCall)]
  rw [if_pos hc]

/-- A guarded call while the limited flag is up (and no unlock is due)
returns `Limited` and changes nothing. -/
theorem checkAndConsume_locked (now : ℕ) (s : RL)
    (hL : s.isRateLimited = true) (hT : s.resetTimeout = none) :
    checkAndConsume now s = (RLResult.Limited, s) := by
  unfold checkAndConsume fireUnlock
  rw [hT]
  simp [hL]

/-- A guarded allowed call with no window reset. -/
theorem checkAndConsume_step_allowed (now : ℕ) (s : RL)
    (hL : s.isRateLimited = false) (hT : s.resetTimeout = none)
    (hc : s.apiCallCount < MAX_API_CALLS)
    (hw : now ≤ s.lastApiCall + RATE_LIMIT_WINDOW) :
    checkAndConsume now s =
      (RLResult.Allowed, { s with apiCallCount := s.apiCallCount + 1, lastApiCall := now }) := by
  unfold checkAndConsume fireUnlock
  rw [hT]
  simp [hL, hT, checkRateLimit_allowed now s hc hw]

/-- A guarded allowed call after the window reset fires. -/
theorem checkAndConsume_step_reset (now : ℕ) (s : RL)
    (hL : s.isRateLimited = false) (hT : s.resetTimeout = none)
    (hw : s.lastApiCall + RATE_LIMIT_WINDOW < now) :
    checkAndConsume now s =
      (RLResult.Allowed, { s with apiCallCount := 1, lastApiCall := now }) := by
  unfold checkAndConsume fireUnlock
  rw [hT]
  simp [hL, hT, checkRateLimit_reset_allowed now s hw]

/-- A guarded call from a clean counter is always allowed, resetting or not.
This covers the first call of a run, whose distance from the initial
`lastApiCall` of zero is arbitrary. -/
theorem checkAndConsume_step_first (now : ℕ) (s : RL)
    (hL : s.isRateLimited = false) (hT : s.resetTimeout = none)
    (hc : s.apiCallCount = 0) :
    checkAndConsume now s =
      (RLResult.Allowed, { s with apiCallCount := 1, lastApiCall := now }) := by
  by_cases hw : s.lastApiCall + RATE_LIMIT_WINDOW < now
  · exact checkAndConsume_step_reset now s hL hT hw
  · have h := checkAndConsume_step_allowed now s hL hT
      (by rw [hc]; decide) (by omega)
    rw [hc] at h
    exact h

/-- A guarded denied call that trips the limiter. -/
theorem checkAndConsume_step_limited (now : ℕ) (s : RL)
    (hL : s.isRateLimited = false) (hT : s.resetTimeout = none)
    (hc : MAX_API_CALLS ≤ s.apiCallCount)
    (hw : now ≤ s.lastApiCall + RATE_LIMIT_WINDOW) :
    checkAndConsume now s =
      (RLResult.Limited, { s with isRateLimited := true,
                                  resetTimeout := some (now + RATE_LIMIT_DURATION) }) := by
  unfold checkAndConsume fireUnlock
  rw [hT]
  simp [hL, checkRateLimit_limited now s hc hw]

/-- A guarded call arriving after the pending unlock was due: the unlock
fires first (flag cleared, counter zeroed), then the call is allowed into a
fresh window. -/
theorem checkAndConsume_step_unlock (now : ℕ) (s : RL) (u : ℕ)
    (hT : s.resetTimeout = some u) (hu : u ≤ now)
    (hw : s.lastApiCall + RATE_LIMIT_WINDOW < now) :
    checkAndConsume now s =
      (RLResult.Allowed, { apiCallCount := 1, lastApiCall := now,
                           isRateLimited := false, resetTimeout := none }) := by
  unfold checkAndConsume fireUnlock
  rw [hT]
  simp [hu, checkRateLimit_reset_allowed now
    { s with apiCallCount := 0, isRateLimited := false, resetTimeout := none } hw]

/-! The round state machine.  `GameState` collects the React state owned by
the `App` component, with external object handles (map, panorama, geocoder,
DOM) omitted: they carry no round-lifecycle state.  The countdown interval
`countdownRef` is modelled by whether it is running, and the next-round
timeout `answerTimeoutRef` by its scheduled firing time. -/

/-- The aggregate component state of `App`. -/
structure GameState where
  position : Option Coord
  guessPosition : Option Coord
  score : ℤ
  gameStarted : Bool
  error : Option String
  countdown : ℕ
  showStreetView : Bool
  roundComplete : Bool
  mapVisible : Bool
  showAnswer : Bool
  showCongrats : Bool
  showFailed : Bool
  distance : ℚ
  showLine : Bool
  linePath : List Coord
  mapKey : ℕ
  showHint : Bool
  hintText : String
  hintUsed : Bool
  countdownActive : Bool
  answerTimeout : Option ℕ
  rl : RL
deriving DecidableEq

/-- The initial component state (the `useState` initialisers). -/
def GameState.initial : GameState :=
  { position := none, guessPosition := none, score := 0, gameStarted := false,
    error := none, countdown := 10, showStreetView := true, roundComplete := false,
    mapVisible := false, showAnswer := false, showCongrats := false, showFailed := false,
    distance := 0, showLine := false, linePath := [], mapKey := 0,
    showHint := false, hintText := "", hintUsed := false,
    countdownActive := false, answerTimeout := none, rl := RL.initial }

/-- The source function `startNewRound`.  The coordinate produced by
`generateRandomLocation` (a `Math.random` sample inside `CALGARY_BOUNDS`) is
passed in as `newPos`.  The two leading rate-limit guards are the early
returns of the source; a due unlock timeout fires first. -/
def startNewRound (now : ℕ) (newPos : Coord) (g : GameState) : GameState :=
  let g0 := { g with rl := fireUnlock now g.rl }
  if g0.rl.isRateLimited then g0
  else
    match checkRateLimit now g0.rl with
    | (true, rl1) => { g0 with rl := rl1 }
    | (false, rl1) =>
        { g0 with
          rl := rl1,
          showLine := false, linePath := [],
          mapKey := g0.mapKey + 1,
          position := some newPos,
          guessPosition := none,
          gameStarted := true,
          error := none,
          countdown := 10,
          showStreetView := true,
          mapVisible := false,
          roundComplete := false,
          showAnswer := false,
          showCongrats := false,
          showFailed := false,
          distance := 0,
          showHint := false,
          hintText := "",
          hintUsed := false,
          countdownActive := true,
          answerTimeout := none }

/-- The source click handler `handleMapClick`.  The external distance
routine `google.maps.geometry.spherical.computeDistanceBetween` is passed in
as the function `dist`; the clicked coordinate `e.latLng` as `click`
(absent when the event carries no coordinate).  `Math.max(0, 5000 -
Math.floor(d))` is embedded over the rationals with the integer floor. -/
def handleMapClick (dist : Coord → Coord → ℚ) (now : ℕ) (click : Option Coord)
    (g : GameState) : GameState :=
  let g0 := { g with rl := fireUnlock now g.rl }
  if !g0.gameStarted || g0.showStreetView || g0.roundComplete || g0.rl.isRateLimited then g0
  else
    match checkRateLimit now g0.rl with
    | (true, rl1) => { g0 with rl := rl1 }
    | (false, rl1) =>
        let g1 := { g0 with rl := rl1 }
        match click with
        | none => g1
        | some guess =>
            let g2 := { g1 with guessPosition := some guess }
            match g2.position with
            | none => g2
            | some pos =>
                let d := dist pos guess
                { g2 with
                  distance := d,
                  score := g2.score + max 0 (5000 - ⌊d⌋),
                  linePath := [guess, pos],
                  showLine := true,
                  roundComplete := true,
                  showAnswer := true,
                  showCongrats := decide (d ≤ 3000),
                  showFailed := decide (3000 < d),
                  answerTimeout := some (now + 5000) }

/-- The failure branch of the street-view lookup effect: when
`getPanorama` reports no panorama, the source sets the retry error message
and immediately calls `startNewRound` with a fresh sample. -/
def onStreetViewFailure (now : ℕ) (newPos : Coord) (g : GameState) : GameState :=
  startNewRound now newPos
    { g with error := some "Unable to load street view. Please try again." }

/-- The scoring formula inlined in `handleMapClick`:
`Math.max(0, 5000 - Math.floor(distanceMeters))`. -/
def pointsFor (d : ℚ) : ℤ := max 0 (5000 - ⌊d⌋)

/-- The source function `getQuadrant`, with the bounding box it reads
abstracted as a parameter (the source reads the fixed `CALGARY_BOUNDS`; the
specification gives the operation the signature `quadrant(point, box)`). -/
def getQuadrantIn (box : Bounds) (lat lng : ℚ) : String :=
  let centerLat := (box.north + box.south) / 2
  let centerLng := (box.east + box.west) / 2
  if lat > centerLat ∧ lng > centerLng then "Northeast"
  else if lat > centerLat ∧ lng < centerLng then "Northwest"
  else if lat < centerLat ∧ lng > centerLng then "Southeast"
  else "Southwest"

/-- The source function `getQuadrant` applied to its fixed bounding box. -/
def getQuadrant (lat lng : ℚ) : String := getQuadrantIn CALGARY_BOUNDS lat lng

/-- Whether the second character list is an initial segment of the first. -/
def listStartsWith : List Char → List Char → Bool
  | _, [] => true
  | [], _ :: _ => false
  | c :: cs, p :: ps => c == p && listStartsWith cs ps

/-- Whether the second character list occurs contiguously in the first. -/
def listContains : List Char → List Char → Bool
  | [], pat => pat.isEmpty
  | c :: cs, pat => listStartsWith (c :: cs) pat || listContains cs pat

/-- Substring containment, the embedding of the JavaScript
`String.prototype.includes`. -/
def containsSub (s pat : String) : Bool := listContains s.data pat.data

/-- Lowercases one ASCII letter, the per-character behaviour of the
JavaScript `toLowerCase` on the ASCII addresses involved. -/
def toLowerChar (c : Char) : Char :=
  if 'A' ≤ c ∧ c ≤ 'Z' then Char.ofNat (c.toNat + 32) else c

/-- Lowercases a string character by character. -/
def lowerString (s : String) : String := String.mk (s.data.map toLowerChar)

/-- The `hasQuadrantInAddress` test inside `getAddressHint`: the lowercased
address contains a quadrant name or a space-delimited abbreviation. -/
def hasQuadrantInAddress (address : String) : Bool :=
  let a := lowerString address
  containsSub a "northeast" || containsSub a "northwest" ||
  containsSub a "southeast" || containsSub a "southwest" ||
  containsSub a " ne " || containsSub a " nw " ||
  containsSub a " se " || containsSub a " sw "

/-- The source function `getAddressHint`.  The asynchronous
`geocoder.geocode` call is passed in as its outcome `geo`: an exception
(caught by the `catch` block), or a result whose first entry is the
formatted address (absent when `results` is empty).  The two leading
rate-limit guards are the early returns of the source. -/
def getAddressHint (now : ℕ) (geo : Except Unit (Option String)) (pos : Coord)
    (g : GameState) : GameState :=
  let g0 := { g with rl := fireUnlock now g.rl }
  if g0.rl.isRateLimited then g0
  else
    match checkRateLimit now g0.rl with
    | (true, rl1) => { g0 with rl := rl1 }
    | (false, rl1) =>
        let g1 := { g0 with rl := rl1 }
        match geo with
        | Except.error _ =>
            { g1 with hintText :=
                "Location is in a suburb of " ++ getQuadrant pos.lat pos.lng ++ " Calgary" }
        | Except.ok none => g1
        | Except.ok (some address) =>
            if hasQuadrantInAddress address then
              { g1 with hintText :=
                  "Location is in " ++ getQuadrant pos.lat pos.lng ++ " Calgary, near " ++ address }
            else
              { g1 with hintText :=
                  "Location is in a suburb of " ++ getQuadrant pos.lat pos.lng ++
                    " Calgary, near " ++ address }

/-! Helper lemmas for the click handler. -/

/-- The accepted-guess branch of `handleMapClick` in one equation: in
`Guessing` phase (game started, street view hidden, round not complete),
with the limiter allowing the call and a truth position present, the click
is scored and the round completes. -/
theorem handleMapClick_scores (dist : Coord → Coord → ℚ) (now : ℕ) (guess pos : Coord)
    (g : GameState) (rl1 : RL)
    (h1 : g.gameStarted = true) (h2 : g.showStreetView = false) (h3 : g.roundComplete = false)
    (h4 : (fireUnlock now g.rl).isRateLimited = false)
    (h5 : checkRateLimit now (fireUnlock now g.rl) = (false, rl1))
    (h6 : g.position = some pos) :
    handleMapClick dist now (some guess) g =
      { g with
        rl := rl1,
        guessPosition := some guess,
        distance := dist pos guess,
        score := g.score + max 0 (5000 - ⌊dist pos guess⌋),
        linePath := [guess, pos],
        showLine := true,
        roundComplete := true,
        showAnswer := true,
        showCongrats := decide (dist pos guess ≤ 3000),
        showFailed := decide (3000 < dist pos guess),
        answerTimeout := some (now + 5000) } := by
  unfold handleMapClick
  simp [h1, h2, h3, h4, h5, h6]

/-- A sample state sitting in the `Guessing` phase with a fresh limiter,
used to instantiate the guarded theorems. -/
def sampleGuessingState : GameState :=
  { GameState.initial with
    gameStarted := true, showStreetView := false,
    position := some { lat := 51, lng := -114 } }

/-- C4: while the phase is `Viewing` (street view still showing) or `Scored`
(round complete), a map click is ignored: the whole round state — guess,
cumulative score, distance, phase flags — is returned unchanged (only a due
rate-limit unlock timeout may fire). -/
theorem guess_ignored_outside_guessing (dist : Coord → Coord → ℚ) (now : ℕ)
    (click : Option Coord) (g : GameState) :
    (g.showStreetView = true →
      handleMapClick dist now click g = { g with rl := fireUnlock now g.rl }) ∧
    (g.roundComplete = true →
      handleMapClick dist now click g = { g with rl := fireUnlock now g.rl }) := by
  constructor
  · intro h
    unfold handleMapClick
    simp [h]
  · intro h
    unfold handleMapClick
    simp [h]

/-- Witness for C4: a concrete click during `Viewing` leaves the state
exactly as it was. -/
theorem guess_ignored_outside_guessing_witness :
    handleMapClick (fun _ _ => 0) 5 (some { lat := 51, lng := -114 })
        { GameState.initial with gameStarted := true } =
      { GameState.initial with gameStarted := true } := by
  have h := (guess_ignored_outside_guessing (fun _ _ => 0) 5
      (some { lat := 51, lng := -114 })
      { GameState.initial with gameStarted := true }).1 rfl
  exact h.trans (by decide)

/-- C3 counterexample: a concrete in-round state — phase `Guessing`
(game started, street view hidden, round not complete, no guess yet) with
the rate limiter in the `Limited` state — on which a guess-submission click
is ignored outright: the state is returned unchanged, so the guess is not
accepted, not scored, and the round does not transition to `Scored`. -/
theorem guess_blocked_when_limited_counterexample :
    let gL : GameState :=
      { GameState.initial with
        gameStarted := true, showStreetView := false,
        position := some { lat := 51, lng := -114 },
        rl := { apiCallCount := 10, lastApiCall := 900,
                isRateLimited := true, resetTimeout := none } }
    handleMapClick (fun _ _ => 0) 1000 (some { lat := 51.05, lng := -114.05 }) gL = gL ∧
    gL.gameStarted = true ∧ gL.showStreetView = false ∧ gL.roundComplete = false ∧
    gL.guessPosition = none ∧ gL.rl.isRateLimited = true := by
  decide

/-- C3 amended: once the rate limiter is `Limited` (and no unlock is due),
a guess-submission event in any phase — including `Guessing` — is ignored:
`handleMapClick` returns the state unchanged, so being rate limited does
block core round progression in-round. -/
theorem guess_ignored_when_limited (dist : Coord → Coord → ℚ) (now : ℕ)
    (click : Option Coord) (g : GameState)
    (h : (fireUnlock now g.rl).isRateLimited = true) :
    handleMapClick dist now click g = { g with rl := fireUnlock now g.rl } := by
  unfold handleMapClick
  simp [h]

/-- Witness for the amended C3 at a concrete limited in-round state. -/
theorem guess_ignored_when_limited_witness :
    handleMapClick (fun _ _ => 0) 1000 (some { lat := 51.05, lng := -114.05 })
        { sampleGuessingState with
          rl := { apiCallCount := 10, lastApiCall := 900,
                  isRateLimited := true, resetTimeout := none } } =
      { sampleGuessingState with
        rl := { apiCallCount := 10, lastApiCall := 900,
                isRateLimited := true, resetTimeout := none } } := by
  have h := guess_ignored_when_limited (fun _ _ => 0) 1000
      (some { lat := 51.05, lng := -114.05 })
      { sampleGuessingState with
        rl := { apiCallCount := 10, lastApiCall := 900,
                isRateLimited := true, resetTimeout := none } } (by decide)
  exact h.trans (by decide)

/-- C5: for an accepted guess the outcome flags are set from the computed
distance with an inclusive 3000 m boundary: `showCongrats` holds exactly
when the distance is at most 3000, `showFailed` exactly when it is strictly
greater, and the two are mutually exclusive. -/
theorem outcome_success_iff_within_3000 (dist : Coord → Coord → ℚ) (now : ℕ)
    (guess pos : Coord) (g : GameState) (rl1 : RL)
    (h1 : g.gameStarted = true) (h2 : g.showStreetView = false) (h3 : g.roundComplete = false)
    (h4 : (fireUnlock now g.rl).isRateLimited = false)
    (h5 : checkRateLimit now (fireUnlock now g.rl) = (false, rl1))
    (h6 : g.position = some pos) :
    ((handleMapClick dist now (some guess) g).showCongrats = true ↔ dist pos guess ≤ 3000) ∧
    ((handleMapClick dist now (some guess) g).showFailed = true ↔ 3000 < dist pos guess) ∧
    (handleMapClick dist now (some guess) g).showFailed
      = !(handleMapClick dist now (some guess) g).showCongrats := by
  rw [handleMapClick_scores dist now guess pos g rl1 h1 h2 h3 h4 h5 h6]
  refine ⟨by simp, by simp, ?_⟩
  rcases le_or_lt (dist pos guess) 3000 with h | h
  · simp [h, not_lt.mpr h]
  · simp [h, not_le.mpr h]

/-- Witness for C5: a guess scored at exactly 3000 m is a success. -/
theorem outcome_success_iff_within_3000_witness :
    (handleMapClick (fun _ _ => (3000 : ℚ)) 0 (some { lat := 51.05, lng := -114.05 })
        sampleGuessingState).showCongrats = true :=
  (outcome_success_iff_within_3000 (fun _ _ => (3000 : ℚ)) 0
      { lat := 51.05, lng := -114.05 } { lat := 51, lng := -114 } sampleGuessingState
      { apiCallCount := 1, lastApiCall := 0, isRateLimited := false, resetTimeout := none }
      rfl rfl rfl (by decide) (by decide) rfl).1.mpr (by norm_num)

/-- C6: the points added to the cumulative score by an accepted guess are
`max(0, 5000 - floor(distance))`; the conversion satisfies the specified
sample values, is monotonically non-increasing, and saturates at zero from
5000 m on. -/
theorem points_formula_and_monotone (dist : Coord → Coord → ℚ) (now : ℕ)
    (guess pos : Coord) (g : GameState) (rl1 : RL)
    (h1 : g.gameStarted = true) (h2 : g.showStreetView = false) (h3 : g.roundComplete = false)
    (h4 : (fireUnlock now g.rl).isRateLimited = false)
    (h5 : checkRateLimit now (fireUnlock now g.rl) = (false, rl1))
    (h6 : g.position = some pos) :
    (handleMapClick dist now (some guess) g).score = g.score + pointsFor (dist pos guess) ∧
    pointsFor 0 = 5000 ∧ pointsFor 2500 = 2500 ∧ pointsFor 5000 = 0 ∧ pointsFor 6000 = 0 ∧
    (∀ d e : ℚ, d ≤ e → pointsFor e ≤ pointsFor d) ∧
    (∀ d : ℚ, 5000 ≤ d → pointsFor d = 0) := by
  refine ⟨?_, by norm_num [pointsFor], by norm_num [pointsFor],
    by norm_num [pointsFor], by norm_num [pointsFor], ?_, ?_⟩
  · rw [handleMapClick_scores dist now guess pos g rl1 h1 h2 h3 h4 h5 h6]
    rfl
  · intro d e h
    unfold pointsFor
    exact max_le_max le_rfl (by have := Int.floor_le_floor h; omega)
  · intro d h
    have hf : (5000 : ℤ) ≤ ⌊d⌋ := Int.le_floor.mpr (by exact_mod_cast h)
    unfold pointsFor
    exact max_eq_left (by omega)

/-- Witness for C6: a concrete guess at 2500 m adds 2500 points. -/
theorem points_formula_and_monotone_witness :
    (handleMapClick (fun _ _ => (2500 : ℚ)) 0 (some { lat := 51.05, lng := -114.05 })
        sampleGuessingState).score = sampleGuessingState.score + pointsFor 2500 :=
  (points_formula_and_monotone (fun _ _ => (2500 : ℚ)) 0
      { lat := 51.05, lng := -114.05 } { lat := 51, lng := -114 } sampleGuessingState
      { apiCallCount := 1, lastApiCall := 0, isRateLimited := false, resetTimeout := none }
      rfl rfl rfl (by decide) (by decide) rfl).1

/-- C1 counterexample: eleven calls spaced 7 s apart (so each gap is well
inside the 60 s window, but the last call is 70 s after the first).  The
implemented limiter measures the window from the most recent call, never
resets, and denies the eleventh call; the specified algorithm measures from
`windowStartTimestamp`, resets at the tenth call, and allows all eleven.
The two result sequences differ, so `checkRateLimit` does not implement the
specified sliding-window algorithm. -/
theorem sliding_window_counterexample :
    (runCalls [0, 7000, 14000, 21000, 28000, 35000, 42000, 49000, 56000, 63000, 70000]
        RL.initial).1 =
      [RLResult.Allowed, RLResult.Allowed, RLResult.Allowed, RLResult.Allowed,
       RLResult.Allowed, RLResult.Allowed, RLResult.Allowed, RLResult.Allowed,
       RLResult.Allowed, RLResult.Allowed, RLResult.Limited] ∧
    (runCallsSpec [0, 7000, 14000, 21000, 28000, 35000, 42000, 49000, 56000, 63000, 70000]
        RLSpec.initial).1 =
      [RLResult.Allowed, RLResult.Allowed, RLResult.Allowed, RLResult.Allowed,
       RLResult.Allowed, RLResult.Allowed, RLResult.Allowed, RLResult.Allowed,
       RLResult.Allowed, RLResult.Allowed, RLResult.Allowed] ∧
    (runCalls [0, 7000, 14000, 21000, 28000, 35000, 42000, 49000, 56000, 63000, 70000]
        RL.initial).1 ≠
    (runCallsSpec [0, 7000, 14000, 21000, 28000, 35000, 42000, 49000, 56000, 63000, 70000]
        RLSpec.initial).1 := by
  decide

/-- C1 amended: the guarded call behaves as the claim states except that the
window reset is keyed to the time since the most recent recorded call, not
to a window-start timestamp.  With no unlock pending: while limited it
returns `Limited` without mutation; if more than 60000 ms have passed since
the last recorded call the counter restarts at one and the call is allowed;
otherwise a full counter yields `Limited` with an unlock scheduled at
`now + 300000` (counter and timestamp untouched), and a non-full counter is
incremented with the call timestamp recorded. -/
theorem checkAndConsume_amended (now : ℕ) (s : RL) (hp : s.resetTimeout = none) :
    (s.isRateLimited = true → checkAndConsume now s = (RLResult.Limited, s)) ∧
    (s.isRateLimited = false → s.lastApiCall + RATE_LIMIT_WINDOW < now →
      checkAndConsume now s =
        (RLResult.Allowed, { s with apiCallCount := 1, lastApiCall := now })) ∧
    (s.isRateLimited = false → now ≤ s.lastApiCall + RATE_LIMIT_WINDOW →
      MAX_API_CALLS ≤ s.apiCallCount →
      checkAndConsume now s =
        (RLResult.Limited, { s with isRateLimited := true,
                                    resetTimeout := some (now + RATE_LIMIT_DURATION) })) ∧
    (s.isRateLimited = false → now ≤ s.lastApiCall + RATE_LIMIT_WINDOW →
      s.apiCallCount < MAX_API_CALLS →
      checkAndConsume now s =
        (RLResult.Allowed, { s with apiCallCount := s.apiCallCount + 1, lastApiCall := now })) :=
  ⟨fun h => checkAndConsume_locked now s h hp,
   fun h hw => checkAndConsume_step_reset now s h hp hw,
   fun h hw hc => checkAndConsume_step_limited now s h hp hc hw,
   fun h hw hc => checkAndConsume_step_allowed now s h hp hc hw⟩

/-- Witness for the amended C1: a concrete in-window allowed call. -/
theorem checkAndConsume_amended_witness :
    checkAndConsume 200
        { apiCallCount := 3, lastApiCall := 100, isRateLimited := false, resetTimeout := none } =
      (RLResult.Allowed,
        { apiCallCount := 4, lastApiCall := 200, isRateLimited := false, resetTimeout := none }) :=
  (checkAndConsume_amended 200
      { apiCallCount := 3, lastApiCall := 100, isRateLimited := false, resetTimeout := none }
      rfl).2.2.2 rfl (by decide) (by decide)

/-- C2: for any eleven guarded calls made in order inside one 60 s window
from a fresh limiter, the first ten are allowed and the eleventh is denied;
and any later call made at least a full lockout (300000 ms) after the
denying call finds the scheduled unlock fired and is allowed into a fresh
window whose counter holds exactly that one call. -/
theorem rateLimiter_window_lockout
    (t1 t2 t3 t4 t5 t6 t7 t8 t9 t10 t11 tN : ℕ)
    (h1 : t1 ≤ t2) (h2 : t2 ≤ t3) (h3 : t3 ≤ t4) (h4 : t4 ≤ t5) (h5 : t5 ≤ t6)
    (h6 : t6 ≤ t7) (h7 : t7 ≤ t8) (h8 : t8 ≤ t9) (h9 : t9 ≤ t10) (h10 : t10 ≤ t11)
    (hwin : t11 ≤ t1 + RATE_LIMIT_WINDOW)
    (hN : t11 + RATE_LIMIT_DURATION ≤ tN) :
    (runCalls [t1, t2, t3, t4, t5, t6, t7, t8, t9, t10, t11] RL.initial).1 =
      [RLResult.Allowed, RLResult.Allowed, RLResult.Allowed, RLResult.Allowed,
       RLResult.Allowed, RLResult.Allowed, RLResult.Allowed, RLResult.Allowed,
       RLResult.Allowed, RLResult.Allowed, RLResult.Limited] ∧
    checkAndConsume tN (runCalls [t1, t2, t3, t4, t5, t6, t7, t8, t9, t10, t11] RL.initial).2 =
      (RLResult.Allowed,
        { apiCallCount := 1, lastApiCall := tN, isRateLimited := false, resetTimeout := none }) := by
  have hW : RATE_LIMIT_WINDOW = 60000 := rfl
  have hD : RATE_LIMIT_DURATION = 300000 := rfl
  have e1 : checkAndConsume t1 RL.initial = (RLResult.Allowed, ⟨1, t1, false, none⟩) :=
    checkAndConsume_step_first t1 RL.initial rfl rfl rfl
  have e2 : checkAndConsume t2 ⟨1, t1, false, none⟩ = (RLResult.Allowed, ⟨2, t2, false, none⟩) :=
    checkAndConsume_step_allowed t2 ⟨1, t1, false, none⟩ rfl rfl (by show (1:ℕ) < MAX_API_CALLS; decide)
      (by show t2 ≤ t1 + RATE_LIMIT_WINDOW; omega)
  have e3 : checkAndConsume t3 ⟨2, t2, false, none⟩ = (RLResult.Allowed, ⟨3, t3, false, none⟩) :=
    checkAndConsume_step_allowed t3 ⟨2, t2, false, none⟩ rfl rfl (by show (2:ℕ) < MAX_API_CALLS; decide)
      (by show t3 ≤ t2 + RATE_LIMIT_WINDOW; omega)
  have e4 : checkAndConsume t4 ⟨3, t3, false, none⟩ = (RLResult.Allowed, ⟨4, t4, false, none⟩) :=
    checkAndConsume_step_allowed t4 ⟨3, t3, false, none⟩ rfl rfl (by show (3:ℕ) < MAX_API_CALLS; decide)
      (by show t4 ≤ t3 + RATE_LIMIT_WINDOW; omega)
  have e5 : checkAndConsume t5 ⟨4, t4, false, none⟩ = (RLResult.Allowed, ⟨5, t5, false, none⟩) :=
    checkAndConsume_step_allowed t5 ⟨4, t4, false, none⟩ rfl rfl (by show (4:ℕ) < MAX_API_CALLS; decide)
      (by show t5 ≤ t4 + RATE_LIMIT_WINDOW; omega)
  have e6 : checkAndConsume t6 ⟨5, t5, false, none⟩ = (RLResult.Allowed, ⟨6, t6, false, none⟩) :=
    checkAndConsume_step_allowed t6 ⟨5, t5, false, none⟩ rfl rfl (by show (5:ℕ) < MAX_API_CALLS; decide)
      (by show t6 ≤ t5 + RATE_LIMIT_WINDOW; omega)
  have e7 : checkAndConsume t7 ⟨6, t6, false, none⟩ = (RLResult.Allowed, ⟨7, t7, false, none⟩) :=
    checkAndConsume_step_allowed t7 ⟨6, t6, false, none⟩ rfl rfl (by show (6:ℕ) < MAX_API_CALLS; decide)
      (by show t7 ≤ t6 + RATE_LIMIT_WINDOW; omega)
  have e8 : checkAndConsume t8 ⟨7, t7, false, none⟩ = (RLResult.Allowed, ⟨8, t8, false, none⟩) :=
    checkAndConsume_step_allowed t8 ⟨7, t7, false, none⟩ rfl rfl (by show (7:ℕ) < MAX_API_CALLS; decide)
      (by show t8 ≤ t7 + RATE_LIMIT_WINDOW; omega)
  have e9 : checkAndConsume t9 ⟨8, t8, false, none⟩ = (RLResult.Allowed, ⟨9, t9, false, none⟩) :=
    checkAndConsume_step_allowed t9 ⟨8, t8, false, none⟩ rfl rfl (by show (8:ℕ) < MAX_API_CALLS; decide)
      (by show t9 ≤ t8 + RATE_LIMIT_WINDOW; omega)
  have e10 : checkAndConsume t10 ⟨9, t9, false, none⟩ = (RLResult.Allowed, ⟨10, t10, false, none⟩) :=
    checkAndConsume_step_allowed t10 ⟨9, t9, false, none⟩ rfl rfl (by show (9:ℕ) < MAX_API_CALLS; decide)
      (by show t10 ≤ t9 + RATE_LIMIT_WINDOW; omega)
  have e11 : checkAndConsume t11 ⟨10, t10, false, none⟩ =
      (RLResult.Limited, ⟨10, t10, true, some (t11 + RATE_LIMIT_DURATION)⟩) :=
    checkAndConsume_step_limited t11 ⟨10, t10, false, none⟩ rfl rfl (by show MAX_API_CALLS ≤ (10:ℕ); decide)
      (by show t11 ≤ t10 + RATE_LIMIT_WINDOW; omega)
  have eN : checkAndConsume tN ⟨10, t10, true, some (t11 + RATE_LIMIT_DURATION)⟩ =
      (RLResult.Allowed, ⟨1, tN, false, none⟩) :=
    checkAndConsume_step_unlock tN ⟨10, t10, true, some (t11 + RATE_LIMIT_DURATION)⟩
      (t11 + RATE_LIMIT_DURATION) rfl hN
      (by show t10 + RATE_LIMIT_WINDOW < tN; omega)
  refine ⟨?_, ?_⟩
  · simp only [runCalls, e1, e2, e3, e4, e5, e6, e7, e8, e9, e10, e11]
  · simp only [runCalls, e1, e2, e3, e4, e5, e6, e7, e8, e9, e10, e11]
    exact eN

/-- Witness for C2 at concrete call times one second apart. -/
theorem rateLimiter_window_lockout_witness :
    (runCalls [0, 1000, 2000, 3000, 4000, 5000, 6000, 7000, 8000, 9000, 10000] RL.initial).1 =
      [RLResult.Allowed, RLResult.Allowed, RLResult.Allowed, RLResult.Allowed,
       RLResult.Allowed, RLResult.Allowed, RLResult.Allowed, RLResult.Allowed,
       RLResult.Allowed, RLResult.Allowed, RLResult.Limited] ∧
    checkAndConsume 310000
        (runCalls [0, 1000, 2000, 3000, 4000, 5000, 6000, 7000, 8000, 9000, 10000] RL.initial).2 =
      (RLResult.Allowed,
        { apiCallCount := 1, lastApiCall := 310000, isRateLimited := false, resetTimeout := none }) :=
  rateLimiter_window_lockout 0 1000 2000 3000 4000 5000 6000 7000 8000 9000 10000 310000
    (by decide) (by decide) (by decide) (by decide) (by decide) (by decide) (by decide)
    (by decide) (by decide) (by decide) (by decide) (by decide)

/-- C7 counterexample: starting from the initial mount, six consecutive
street-view lookup failures in quick succession.  After the sixth failure
the machine has again resampled and restarted `Viewing` (street view shown,
countdown back at 10, a sixth fresh truth in place) and the surfaced error
is `none` — at no point is a `Fatal: NoLocationsAvailable` error produced,
so the retries are not capped at five. -/
theorem retry_uncapped_counterexample :
    let g0 := startNewRound 0 { lat := 51, lng := -114 } GameState.initial
    let g1 := onStreetViewFailure 10 { lat := 52, lng := -114 } g0
    let g2 := onStreetViewFailure 20 { lat := 53, lng := -114 } g1
    let g3 := onStreetViewFailure 30 { lat := 54, lng := -114 } g2
    let g4 := onStreetViewFailure 40 { lat := 55, lng := -114 } g3
    let g5 := onStreetViewFailure 50 { lat := 56, lng := -114 } g4
    let g6 := onStreetViewFailure 60 { lat := 57, lng := -114 } g5
    g6.gameStarted = true ∧ g6.showStreetView = true ∧ g6.countdown = 10 ∧
    g6.position = some { lat := 57, lng := -114 } ∧ g6.error = none ∧
    g6.rl.isRateLimited = false := by
  decide

/-- C7 amended: on a street-view lookup failure the machine records the
retry error message and immediately calls `startNewRound` with a fresh
sample.  When the rate limiter allows the restart, a full new round begins
(and the error is cleared again by the restart); when the limiter is in the
`Limited` state, the restart is swallowed and only the retry message
remains.  No failure counter caps the retries and no
`Fatal: NoLocationsAvailable` error exists. -/
theorem lookup_failure_restarts_unbounded (now : ℕ) (newPos : Coord) (g : GameState)
    (rl1 : RL) :
    ((fireUnlock now g.rl).isRateLimited = false →
      checkRateLimit now (fireUnlock now g.rl) = (false, rl1) →
      onStreetViewFailure now newPos g =
        { g with
          rl := rl1, error := none, position := some newPos, guessPosition := none,
          gameStarted := true, countdown := 10, showStreetView := true, mapVisible := false,
          roundComplete := false, showAnswer := false, showCongrats := false,
          showFailed := false, distance := 0, showLine := false, linePath := [],
          mapKey := g.mapKey + 1, showHint := false, hintText := "", hintUsed := false,
          countdownActive := true, answerTimeout := none }) ∧
    ((fireUnlock now g.rl).isRateLimited = true →
      onStreetViewFailure now newPos g =
        { g with
          error := some "Unable to load street view. Please try again.",
          rl := fireUnlock now g.rl }) := by
  constructor
  · intro h4 h5
    unfold onStreetViewFailure startNewRound
    simp [h4, h5]
  · intro h
    unfold onStreetViewFailure startNewRound
    simp [h]

/-- Witness for the amended C7: one concrete failure from a fresh state
restarts the round with the fresh sample and no error. -/
theorem lookup_failure_restarts_unbounded_witness :
    onStreetViewFailure 0 { lat := 51, lng := -114 } GameState.initial =
      { GameState.initial with
        rl := { apiCallCount := 1, lastApiCall := 0, isRateLimited := false, resetTimeout := none },
        position := some { lat := 51, lng := -114 }, gameStarted := true,
        mapKey := 1, countdownActive := true } := by
  have h := (lookup_failure_restarts_unbounded 0 { lat := 51, lng := -114 } GameState.initial
      { apiCallCount := 1, lastApiCall := 0, isRateLimited := false, resetTimeout := none }).1
      (by decide) (by decide)
  exact h.trans (by decide)

/-- C8 counterexample: with the limiter locked (unlock scheduled for
t = 305000), a round start attempted at t = 100000 changes nothing; when
the scheduled unlock fires and capacity is available again, still no round
has started (game not started, no truth sampled) — the denied start was
dropped, not deferred. -/
theorem round_start_dropped_counterexample :
    let gL : GameState :=
      { GameState.initial with
        rl := { apiCallCount := 10, lastApiCall := 5000, isRateLimited := true,
                resetTimeout := some 305000 } }
    startNewRound 100000 { lat := 51, lng := -114 } gL = gL ∧
    gL.gameStarted = false ∧ gL.position = none ∧
    (fireUnlock 305000 gL.rl).isRateLimited = false ∧
    ({ gL with rl := fireUnlock 305000 gL.rl } : GameState).gameStarted = false ∧
    ({ gL with rl := fireUnlock 305000 gL.rl } : GameState).position = none := by
  decide

/-- C8 amended: a rate-limit-denied `startNewRound` leaves the whole round
state (truth, guess, phase, countdown, timers) unchanged — only the limiter
bookkeeping may move — and the attempt is dropped rather than deferred: a
round begins only when `startNewRound` is invoked again and the limiter
allows it, in which case a fresh round starts. -/
theorem round_start_denied_behavior (now : ℕ) (newPos : Coord) (g : GameState) :
    ((fireUnlock now g.rl).isRateLimited = true →
      startNewRound now newPos g = { g with rl := fireUnlock now g.rl }) ∧
    (∀ rl2 : RL, (fireUnlock now g.rl).isRateLimited = false →
      checkRateLimit now (fireUnlock now g.rl) = (true, rl2) →
      startNewRound now newPos g = { g with rl := rl2 }) ∧
    (∀ rl2 : RL, (fireUnlock now g.rl).isRateLimited = false →
      checkRateLimit now (fireUnlock now g.rl) = (false, rl2) →
      (startNewRound now newPos g).gameStarted = true ∧
      (startNewRound now newPos g).position = some newPos ∧
      (startNewRound now newPos g).countdown = 10 ∧
      (startNewRound now newPos g).showStreetView = true ∧
      (startNewRound now newPos g).guessPosition = none) := by
  refine ⟨?_, ?_, ?_⟩
  · intro h
    unfold startNewRound
    simp [h]
  · intro rl2 h4 h5
    unfold startNewRound
    simp [h4, h5]
  · intro rl2 h4 h5
    unfold startNewRound
    simp [h4, h5]

/-- Witness for the amended C8: a concrete denied start changes nothing. -/
theorem round_start_denied_behavior_witness :
    startNewRound 100 { lat := 51, lng := -114 }
        { GameState.initial with
          rl := { apiCallCount := 10, lastApiCall := 0, isRateLimited := true,
                  resetTimeout := some 300000 } } =
      { GameState.initial with
        rl := { apiCallCount := 10, lastApiCall := 0, isRateLimited := true,
                resetTimeout := some 300000 } } := by
  have h := (round_start_denied_behavior 100 { lat := 51, lng := -114 }
      { GameState.initial with
        rl := { apiCallCount := 10, lastApiCall := 0, isRateLimited := true,
                resetTimeout := some 300000 } }).1 (by decide)
  exact h.trans (by decide)

/-- C9 counterexample: a hint requested while the rate limiter is `Limited`
produces no hint at all — `getAddressHint` returns before any text is set,
leaving the per-round hint text empty — rather than the claimed non-empty
quadrant-only fallback (which for this point would read `Location is in a
suburb of Northwest Calgary`). -/
theorem hint_rate_limited_counterexample :
    let gL : GameState :=
      { sampleGuessingState with
        rl := { apiCallCount := 10, lastApiCall := 0, isRateLimited := true,
                resetTimeout := none } }
    (getAddressHint 1000 (Except.error ()) { lat := 51.1, lng := -114.1 } gL).hintText = "" ∧
    getQuadrant 51.1 (-114.1) = "Northwest" ∧
    (getAddressHint 1000 (Except.error ()) { lat := 51.1, lng := -114.1 } gL).hintText ≠
      "Location is in a suburb of Northwest Calgary" := by
  refine ⟨by decide, ?_, by decide⟩
  unfold getQuadrant getQuadrantIn CALGARY_BOUNDS
  norm_num

/-- C9 amended: with the rate limiter allowing the lookup, a geocoded
address containing a quadrant indicator yields the direct hint, one without
the indicator yields the suburb hint with the address, and a geocoding
exception yields the quadrant-only fallback; but when the limiter is
`Limited` (or the guarded call itself is denied, or geocoding returns no
results) the hint text is left unchanged — no fallback hint is produced. -/
theorem hint_text_behavior (now : ℕ) (geo : Except Unit (Option String)) (pos : Coord)
    (g : GameState) (rl1 : RL) (address : String) :
    ((fireUnlock now g.rl).isRateLimited = true →
      (getAddressHint now geo pos g).hintText = g.hintText) ∧
    ((fireUnlock now g.rl).isRateLimited = false →
      checkRateLimit now (fireUnlock now g.rl) = (true, rl1) →
      (getAddressHint now geo pos g).hintText = g.hintText) ∧
    ((fireUnlock now g.rl).isRateLimited = false →
      checkRateLimit now (fireUnlock now g.rl) = (false, rl1) →
      geo = Except.error () →
      (getAddressHint now geo pos g).hintText =
        "Location is in a suburb of " ++ getQuadrant pos.lat pos.lng ++ " Calgary") ∧
    ((fireUnlock now g.rl).isRateLimited = false →
      checkRateLimit now (fireUnlock now g.rl) = (false, rl1) →
      geo = Except.ok none →
      (getAddressHint now geo pos g).hintText = g.hintText) ∧
    ((fireUnlock now g.rl).isRateLimited = false →
      checkRateLimit now (fireUnlock now g.rl) = (false, rl1) →
      geo = Except.ok (some address) → hasQuadrantInAddress address = true →
      (getAddressHint now geo pos g).hintText =
        "Location is in " ++ getQuadrant pos.lat pos.lng ++ " Calgary, near " ++ address) ∧
    ((fireUnlock now g.rl).isRateLimited = false →
      checkRateLimit now (fireUnlock now g.rl) = (false, rl1) →
      geo = Except.ok (some address) → hasQuadrantInAddress address = false →
      (getAddressHint now geo pos g).hintText =
        "Location is in a suburb of " ++ getQuadrant pos.lat pos.lng ++
          " Calgary, near " ++ address) := by
  refine ⟨?_, ?_, ?_, ?_, ?_, ?_⟩
  · intro h
    unfold getAddressHint
    simp [h]
  · intro h4 h5
    unfold getAddressHint
    simp [h4, h5]
  · intro h4 h5 hg
    subst hg
    unfold getAddressHint
    simp [h4, h5]
  · intro h4 h5 hg
    subst hg
    unfold getAddressHint
    simp [h4, h5]
  · intro h4 h5 hg hq
    subst hg
    unfold getAddressHint
    simp [h4, h5, hq]
  · intro h4 h5 hg hq
    subst hg
    unfold getAddressHint
    simp [h4, h5, hq]

/-- Witness for the amended C9: a concrete address carrying the `NE`
abbreviation yields the direct hint format. -/
theorem hint_text_behavior_witness :
    (getAddressHint 0 (Except.ok (some "123 Main St NE Calgary"))
        { lat := 51.1, lng := -113.9 } sampleGuessingState).hintText =
      "Location is in " ++ getQuadrant 51.1 (-113.9) ++ " Calgary, near " ++
        "123 Main St NE Calgary" :=
  (hint_text_behavior 0 (Except.ok (some "123 Main St NE Calgary"))
      { lat := 51.1, lng := -113.9 } sampleGuessingState
      { apiCallCount := 1, lastApiCall := 0, isRateLimited := false, resetTimeout := none }
      "123 Main St NE Calgary").2.2.2.2.1 (by decide) (by decide) rfl (by decide)

/-- C10: `getQuadrant` classifies a point against the geometric center of
the bounding box, with both center lines (equal latitude or equal
longitude) resolving to `Southwest`. -/
theorem quadrant_classification (box : Bounds) (lat lng : ℚ) :
    ((box.north + box.south) / 2 < lat → (box.east + box.west) / 2 < lng →
      getQuadrantIn box lat lng = "Northeast") ∧
    ((box.north + box.south) / 2 < lat → lng < (box.east + box.west) / 2 →
      getQuadrantIn box lat lng = "Northwest") ∧
    (lat < (box.north + box.south) / 2 → (box.east + box.west) / 2 < lng →
      getQuadrantIn box lat lng = "Southeast") ∧
    (lat < (box.north + box.south) / 2 → lng < (box.east + box.west) / 2 →
      getQuadrantIn box lat lng = "Southwest") ∧
    (lat = (box.north + box.south) / 2 → getQuadrantIn box lat lng = "Southwest") ∧
    (lng = (box.east + box.west) / 2 → getQuadrantIn box lat lng = "Southwest") := by
  simp only [getQuadrantIn]
  refine ⟨?_, ?_, ?_, ?_, ?_, ?_⟩
  · intro ha hb
    rw [if_pos ⟨ha, hb⟩]
  · intro ha hb
    rw [if_neg (fun hc => absurd hc.2 (lt_asymm hb)), if_pos ⟨ha, hb⟩]
  · intro ha hb
    rw [if_neg (fun hc => absurd hc.1 (lt_asymm ha)),
        if_neg (fun hc => absurd hc.1 (lt_asymm ha)), if_pos ⟨ha, hb⟩]
  · intro ha hb
    rw [if_neg (fun hc => absurd hc.1 (lt_asymm ha)),
        if_neg (fun hc => absurd hc.1 (lt_asymm ha)),
        if_neg (fun hc => absurd hc.2 (lt_asymm hb))]
  · intro h
    subst h
    rw [if_neg (fun hc => absurd hc.1 (lt_irrefl _)),
        if_neg (fun hc => absurd hc.1 (lt_irrefl _)),
        if_neg (fun hc => absurd hc.1 (lt_irrefl _))]
  · intro h
    subst h
    rw [if_neg (fun hc => absurd hc.2 (lt_irrefl _)),
        if_neg (fun hc => absurd hc.2 (lt_irrefl _)),
        if_neg (fun hc => absurd hc.2 (lt_irrefl _))]

/-- Witness for C10: a point exactly on the horizontal center line of the
Calgary box resolves to `Southwest`. -/
theorem quadrant_classification_witness :
    getQuadrantIn CALGARY_BOUNDS 51.05 (-113.9) = "Southwest" :=
  (quadrant_classification CALGARY_BOUNDS 51.05 (-113.9)).2.2.2.2.1
    (by norm_num [CALGARY_BOUNDS])
